import Mathlib

/-
Verification of the flux-connect connector core (src/unnamed/part_000, the
`connect` higher-order component) and the Provider (src/lib/provider.js),
as a shallow embedding.  JS objects are modelled as association lists over
primitive values, state objects carry an allocation identity so that the
JS === comparison is structural equality of the model value, mappers are
Lean functions that may throw (Except), and the mutable per-instance
fields of the Connect class are a state record threaded explicitly.
Ghost event traces (List Ev) record mapper invocations, subscription
changes and cache clears; they add no behaviour.
-/

namespace FluxConnect

/-- JS primitive values appearing in prop objects.  The claims only involve
primitives, for which the JS === comparison is value equality. -/
inductive JVal where
  | undef : JVal
  | str : String → JVal
  | num : Int → JVal
  | bool : Bool → JVal
deriving DecidableEq

/-- A JS props object: an association list of fields.  Lookup takes the
first binding, so shadowed duplicates are unobservable through jsGet. -/
abbrev PropsObj := List (String × JVal)

/-- Property read o[k]. -/
def jsGet (o : PropsObj) (k : String) : Option JVal :=
  (o.find? (fun kv => kv.1 == k)).map (fun kv => kv.2)

/-- Property read with JS undefined for a missing key. -/
def jsGetD (o : PropsObj) (k : String) : JVal :=
  (jsGet o k).getD JVal.undef

/-- Property write o[k] = v (prepends; jsGet sees the new binding). -/
def jsSet (o : PropsObj) (k : String) (v : JVal) : PropsObj :=
  (k, v) :: o

/-- JS ||-style choice on lookup results. -/
def jsOr (a b : Option JVal) : Option JVal :=
  match a with
  | some v => some v
  | none => b

/-- Spread merge, modelling the lookup semantics of the object literal
with a spread first of a and then of b: a binding of b wins over a. -/
def spread2 (a b : PropsObj) : PropsObj := b ++ a

/-- shallowEqual on props objects: same keys and equal values, stated as
pointwise agreement of jsGet on every key occurring in either object
(the imported shallowEqual compares key sets and values with ===). -/
def shallowEqualObj (a b : PropsObj) : Bool :=
  a.all (fun kv => jsGet a kv.1 == jsGet b kv.1) &&
  b.all (fun kv => jsGet a kv.1 == jsGet b kv.1)

/-- A JS state object: oid is the allocation identity.  Two distinct
allocations always differ in oid, so the JS === comparison on state
objects is structural equality of this record. -/
structure JsObj where
  oid : Nat
  fields : PropsObj
deriving DecidableEq

/-- JS === on state objects. -/
def jsIs (a b : JsObj) : Bool := decide (a = b)

/-- Errors thrown by user mappers. -/
abbrev Err := String

mutual
/-- A value returned by a mapper: a plain object, or a function (the
factory case of mapStateToProps). -/
inductive MapVal where
  | obj : PropsObj → MapVal
  | func : MapFun → MapVal
/-- A mapper function: its declared parameter arity (fn.length) and its
body, which receives the state and, when called with two arguments, the
own props; it may throw. -/
inductive MapFun where
  | mk : Nat → (JsObj → Option PropsObj → Except Err MapVal) → MapFun
end

/-- Declared parameter arity (fn.length). -/
def MapFun.arity : MapFun → Nat
  | MapFun.mk a _ => a

/-- Invoke the mapper body. -/
def MapFun.run : MapFun → JsObj → Option PropsObj → Except Err MapVal
  | MapFun.mk _ f => f

/-- shallowEqual on mapper results.  Two function values are never taken
as shallow-equal here: shallowEqual returns false for non-identical
functions, and the code never stores and re-compares one identical
function object in the claims considered. -/
def shallowEqualMV : MapVal → MapVal → Bool
  | MapVal.obj a, MapVal.obj b => shallowEqualObj a b
  | _, _ => false

/-- Spreading a mapper result into an object literal: a plain object
contributes its fields; spreading null or a function contributes none. -/
def spreadSrc : Option MapVal → PropsObj
  | some (MapVal.obj o) => o
  | _ => []

/-- Ghost trace events: mapper invocations (outerCall is a direct call of
the user-supplied mapStateToProps from configureFinalMapState, finalCall
a call of the stored finalMapStateToProps), subscription changes, and
cache clears tagged with the subscription status at the moment of the
clear. -/
inductive Ev where
  | outerCall : Ev
  | finalCall : Ev
  | subscribed : Ev
  | unsubscribed : Ev
  | cacheCleared : Bool → Ev
deriving DecidableEq

/-- The rendered output React.createElement(WrappedComponent, mergedProps),
identified by the merged props it received. -/
structure Element where
  props : PropsObj
deriving DecidableEq

/-- The data source: current state plus the number of change handlers this
instance has registered on its emitter. -/
structure Store where
  curState : JsObj
  listeners : Nat
deriving DecidableEq

/-- The mutable per-instance fields of the Connect class.  unsubscribe is
whether the subscription handle is set; storeState is this.state.storeState. -/
structure Connect where
  storeState : JsObj
  props : PropsObj
  doStatePropsDependOnOwnProps : Bool
  finalMapStateToProps : Option MapFun
  haveOwnPropsChanged : Bool
  hasStoreStateChanged : Bool
  haveStatePropsBeenPrecalculated : Bool
  renderedElement : Option Element
  stateProps : Option MapVal
  statePropsPrecalculationError : Option Err
  unsubscribe : Bool
  version : Nat

/-- clearCache, lines 126-134. -/
def clearCache (c : Connect) : Connect :=
  { c with stateProps := none,
           haveOwnPropsChanged := true,
           hasStoreStateChanged := true,
           haveStatePropsBeenPrecalculated := false,
           statePropsPrecalculationError := none,
           renderedElement := none,
           finalMapStateToProps := none }

/-- The constructor, lines 89-104: capture the state snapshot and clear the
cache.  doStatePropsDependOnOwnProps starts undefined in JS, which is
falsy everywhere it is read before configureFinalMapState sets it; it is
modelled as false. -/
def initConnect (version : Nat) (cur : JsObj) (props : PropsObj) : Connect :=
  clearCache
    { storeState := cur, props := props,
      doStatePropsDependOnOwnProps := false,
      finalMapStateToProps := none,
      haveOwnPropsChanged := true, hasStoreStateChanged := true,
      haveStatePropsBeenPrecalculated := false,
      renderedElement := none, stateProps := none,
      statePropsPrecalculationError := none,
      unsubscribe := false, version := version }

/-- Invocation of the stored finalMapStateToProps by computeStateProps,
lines 196-198: with (state, props) when doStatePropsDependOnOwnProps,
with (state) alone otherwise. -/
def computeStatePropsFinal (m : MapFun) (dep : Bool) (cur : JsObj) (props : PropsObj) :
    Except Err MapVal :=
  if dep then m.run cur (some props) else m.run cur none

/-- configureFinalMapState, lines 223-240: call the user mapper with
(state, props); if the result is a function, store it as the final mapper
and immediately recompute through it (the source re-enters
computeStateProps, which now takes the finalMapStateToProps branch,
unfolded here); otherwise store the user mapper itself and return the
result.  Either way doStatePropsDependOnOwnProps is set from the stored
mapper's declared arity.  checkStateShape only logs a development warning
and is omitted. -/
def configureFinalMapState (mstp : MapFun) (c : Connect) (cur : JsObj) (props : PropsObj) :
    Connect × List Ev × Except Err MapVal :=
  match mstp.run cur (some props) with
  | Except.error e => (c, [Ev.outerCall], Except.error e)
  | Except.ok (MapVal.func inner) =>
      let c1 := { c with finalMapStateToProps := some inner,
                         doStatePropsDependOnOwnProps := inner.arity != 1 }
      (c1, [Ev.outerCall, Ev.finalCall],
        computeStatePropsFinal inner c1.doStatePropsDependOnOwnProps cur props)
  | Except.ok (MapVal.obj o) =>
      ({ c with finalMapStateToProps := some mstp,
                doStatePropsDependOnOwnProps := mstp.arity != 1 },
       [Ev.outerCall], Except.ok (MapVal.obj o))

/-- computeStateProps, lines 189-204: configure on first use, otherwise
invoke the stored final mapper according to doStatePropsDependOnOwnProps. -/
def computeStateProps (mstp : MapFun) (c : Connect) (cur : JsObj) (props : PropsObj) :
    Connect × List Ev × Except Err MapVal :=
  match c.finalMapStateToProps with
  | none => configureFinalMapState mstp c cur props
  | some m => (c, [Ev.finalCall], computeStatePropsFinal m c.doStatePropsDependOnOwnProps cur props)

/-- updateStatePropsIfNeeded, lines 179-187: recompute, discard the result
when it is shallow-equal to the cached stateProps (reporting false),
otherwise store it (reporting true).  A null cache is always replaced. -/
def updateStatePropsIfNeeded (mstp : MapFun) (c : Connect) (cur : JsObj) :
    Connect × List Ev × Except Err Bool :=
  match computeStateProps mstp c cur c.props with
  | (c1, tr, Except.error e) => (c1, tr, Except.error e)
  | (c1, tr, Except.ok next) =>
      match c1.stateProps with
      | some prev =>
          if shallowEqualMV next prev then (c1, tr, Except.ok false)
          else ({ c1 with stateProps := some next }, tr, Except.ok true)
      | none => ({ c1 with stateProps := some next }, tr, Except.ok true)

/-- handleChange, lines 153-177: no-op when unsubscribed; no-op in pure
mode when the fresh state is reference-identical to the cached one; in
pure mode with a state-only mapper, eagerly recompute inside tryCatch,
returning without scheduling when nothing changed, and capturing a thrown
error into statePropsPrecalculationError; otherwise record the state
change and schedule an update (the returned Bool is whether setState was
called). -/
def handleChange (mstp : MapFun) (pure : Bool) (c : Connect) (cur : JsObj) :
    Connect × Bool × List Ev :=
  if !c.unsubscribe then (c, false, [])
  else if pure && jsIs c.storeState cur then (c, false, [])
  else if pure && !c.doStatePropsDependOnOwnProps then
    match updateStatePropsIfNeeded mstp c cur with
    | (c1, tr, Except.ok false) => (c1, false, tr)
    | (c1, tr, Except.ok true) =>
        ({ c1 with haveStatePropsBeenPrecalculated := true,
                   hasStoreStateChanged := true, storeState := cur }, true, tr)
    | (c1, tr, Except.error e) =>
        ({ c1 with statePropsPrecalculationError := some e,
                   haveStatePropsBeenPrecalculated := true,
                   hasStoreStateChanged := true, storeState := cur }, true, tr)
  else ({ c with hasStoreStateChanged := true, storeState := cur }, true, [])

/-- shouldComponentUpdate, lines 122-124. -/
def shouldComponentUpdate (pure : Bool) (c : Connect) : Bool :=
  !pure || c.haveOwnPropsChanged || c.hasStoreStateChanged

/-- trySubscribe, lines 136-144: when a mapper was supplied and no handle
is set, register the change handler (one more listener on the emitter),
set the handle, and invoke handleChange once; otherwise do nothing. -/
def trySubscribe (mstp : MapFun) (shouldSubscribe pure : Bool) (c : Connect) (st : Store) :
    Connect × Store × Bool × List Ev :=
  if shouldSubscribe && !c.unsubscribe then
    let st1 : Store := { st with listeners := st.listeners + 1 }
    let r := handleChange mstp pure { c with unsubscribe := true } st.curState
    (r.1, st1, r.2.1, Ev.subscribed :: r.2.2)
  else (c, st, false, [])

/-- tryUnsubscribe, lines 146-151: when the handle is set, remove the
handler and clear the handle; otherwise do nothing. -/
def tryUnsubscribe (c : Connect) (st : Store) : Connect × Store × List Ev :=
  if c.unsubscribe then
    ({ c with unsubscribe := false },
     { st with listeners := st.listeners - 1 }, [Ev.unsubscribed])
  else (c, st, [])

/-- componentWillUnmount, lines 117-120: tryUnsubscribe then clearCache.
The clear event is tagged with the subscription status at that moment. -/
def componentWillUnmount (c : Connect) (st : Store) : Connect × Store × List Ev :=
  let r := tryUnsubscribe c st
  (clearCache r.1, r.2.1, r.2.2 ++ [Ev.cacheCleared r.1.unsubscribe])

/-- The development-only componentWillUpdate, lines 311-323: on a stale
version, bump the version, trySubscribe, then clearCache. -/
def componentWillUpdate (mstp : MapFun) (shouldSubscribe pure : Bool) (version : Nat)
    (c : Connect) (st : Store) : Connect × Store × Bool × List Ev :=
  if c.version == version then (c, st, false, [])
  else
    let r := trySubscribe mstp shouldSubscribe pure { c with version := version } st
    (clearCache r.1, r.2.1, r.2.2.1, r.2.2.2 ++ [Ev.cacheCleared r.1.unsubscribe])

/-- The merged props built in render, lines 298-304: spread the cached
stateProps, then the own props, then with withRef assign the ref key. -/
def mergedPropsOf (withRef : Bool) (stateProps : Option MapVal) (props : PropsObj) : PropsObj :=
  let m := spread2 (spreadSrc stateProps) props
  if withRef then jsSet m "ref" (JVal.str "wrappedInstance") else m

/-- render, lines 255-308: snapshot and clear the changed flags, re-throw a
captured precalculation error, decide whether to recompute derived props,
reuse a precalculated result, return the cached element when nothing
changed, and otherwise build and cache a fresh element from the merged
props. -/
def render (mstp : MapFun) (pure withRef : Bool) (c0 : Connect) (cur : JsObj) :
    Connect × List Ev × Except Err Element :=
  let haveOwnPropsChanged := c0.haveOwnPropsChanged
  let hasStoreStateChanged := c0.hasStoreStateChanged
  let haveStatePropsBeenPrecalculated := c0.haveStatePropsBeenPrecalculated
  let statePropsPrecalculationError := c0.statePropsPrecalculationError
  let renderedElement := c0.renderedElement
  let c := { c0 with haveOwnPropsChanged := false,
                     hasStoreStateChanged := false,
                     haveStatePropsBeenPrecalculated := false,
                     statePropsPrecalculationError := none }
  match statePropsPrecalculationError with
  | some e => (c, [], Except.error e)
  | none =>
    let shouldUpdateStateProps : Bool :=
      if pure && renderedElement.isSome then
        hasStoreStateChanged || (haveOwnPropsChanged && c.doStatePropsDependOnOwnProps)
      else true
    match (if haveStatePropsBeenPrecalculated then (c, [], Except.ok true)
           else if shouldUpdateStateProps then updateStatePropsIfNeeded mstp c cur
           else (c, [], Except.ok false)) with
    | (c1, tr, Except.error e) => (c1, tr, Except.error e)
    | (c1, tr, Except.ok haveStatePropsChanged) =>
        if !haveStatePropsChanged && !haveOwnPropsChanged && renderedElement.isSome then
          (c1, tr, Except.ok (renderedElement.getD ⟨[]⟩))
        else
          let merged := mergedPropsOf withRef c1.stateProps c1.props
          ({ c1 with renderedElement := some ⟨merged⟩ }, tr, Except.ok ⟨merged⟩)

/-- A sequence of derived-props computations for one instance (the inputs
are the store state and own props at each call). -/
def runComputes (mstp : MapFun) : Connect → List (JsObj × PropsObj) → Connect × List Ev
  | c, [] => (c, [])
  | c, (s, p) :: rest =>
      let r := computeStateProps mstp c s p
      let r2 := runComputes mstp r.1 rest
      (r2.1, r.2.1 ++ r2.2)

/-- An interleaving of trySubscribe and tryUnsubscribe calls. -/
inductive SubOp where
  | sub : SubOp
  | unsub : SubOp

/-- Run a sequence of subscribe/unsubscribe operations. -/
def runSubOps (mstp : MapFun) (shouldSubscribe pure : Bool) :
    List SubOp → Connect → Store → Connect × Store
  | [], c, st => (c, st)
  | SubOp.sub :: rest, c, st =>
      let r := trySubscribe mstp shouldSubscribe pure c st
      runSubOps mstp shouldSubscribe pure rest r.1 r.2.1
  | SubOp.unsub :: rest, c, st =>
      let r := tryUnsubscribe c st
      runSubOps mstp shouldSubscribe pure rest r.1 r.2.1

/-- The subscription bookkeeping invariant: the emitter holds exactly one
handler from this instance when its handle is set, none otherwise. -/
def subInv (c : Connect) (st : Store) : Prop :=
  st.listeners = (if c.unsubscribe then 1 else 0)

/-- The data source as seen by the Provider: its state and whether a
getState accessor has been installed on the object. -/
structure FluxSource where
  state : JsObj
  hasGetState : Bool
deriving DecidableEq

/-- Provider.getChildContext, src/lib/provider.js lines 21-27: assigns
flux.getState on the flux object (installing the accessor mutates the
data source) and exposes that same object through context. -/
def getChildContext (flux : FluxSource) : FluxSource :=
  { flux with hasGetState := true }

/-! Concrete fixtures used by witnesses and counterexamples. -/

/-- The mapper of the spec scenario: (state) => (obj with count: state.count). -/
def mapper1 : MapFun :=
  MapFun.mk 1 (fun s _ => Except.ok (MapVal.obj [("count", jsGetD s.fields "count")]))

/-- Initial state object with count 0. -/
def s0ex : JsObj := ⟨0, [("count", JVal.num 0)]⟩

/-- A fresh state object, also with count 0. -/
def s1ex : JsObj := ⟨1, [("count", JVal.num 0)]⟩

/-- A fresh state object with count 1. -/
def s2ex : JsObj := ⟨2, [("count", JVal.num 1)]⟩

/-- A mounted, already-rendered pure connector instance with the scenario
mapper established and derived props cached at count 0. -/
def c0ex : Connect :=
  { storeState := s0ex, props := [],
    doStatePropsDependOnOwnProps := false,
    finalMapStateToProps := some mapper1,
    haveOwnPropsChanged := false, hasStoreStateChanged := false,
    haveStatePropsBeenPrecalculated := false,
    renderedElement := some ⟨[("count", JVal.num 0)]⟩,
    stateProps := some (MapVal.obj [("count", JVal.num 0)]),
    statePropsPrecalculationError := none,
    unsubscribe := true, version := 0 }

/-! Helper lemmas. -/

/-- Lookup in a concatenation prefers the left list. -/
theorem jsGet_append (xs ys : PropsObj) (k : String) :
    jsGet (xs ++ ys) k = jsOr (jsGet xs k) (jsGet ys k) := by
  induction xs with
  | nil => simp [jsGet, jsOr]
  | cons kv rest ih =>
      by_cases h : kv.1 == k
      · simp [jsGet, List.find?, h, jsOr]
      · simp only [List.cons_append]
        simp [jsGet, List.find?, h] at ih ⊢
        exact ih

/-- Once the final mapper is configured, computeStateProps leaves the
instance untouched and performs exactly one finalCall. -/
theorem computeStateProps_configured (mstp m : MapFun) (c : Connect) (s : JsObj) (p : PropsObj)
    (hfm : c.finalMapStateToProps = some m) :
    computeStateProps mstp c s p
      = (c, [Ev.finalCall], computeStatePropsFinal m c.doStatePropsDependOnOwnProps s p) := by
  simp [computeStateProps, hfm]

/-- configureFinalMapState never touches the subscription handle. -/
theorem configureFinalMapState_unsub (mstp : MapFun) (c : Connect) (s : JsObj) (p : PropsObj) :
    (configureFinalMapState mstp c s p).1.unsubscribe = c.unsubscribe := by
  unfold configureFinalMapState
  cases h : mstp.run s (some p) with
  | error e => rfl
  | ok v => cases v <;> rfl

/-- computeStateProps never touches the subscription handle. -/
theorem computeStateProps_unsub (mstp : MapFun) (c : Connect) (s : JsObj) (p : PropsObj) :
    (computeStateProps mstp c s p).1.unsubscribe = c.unsubscribe := by
  unfold computeStateProps
  cases h : c.finalMapStateToProps with
  | none => exact configureFinalMapState_unsub mstp c s p
  | some m => rfl

/-- updateStatePropsIfNeeded never touches the subscription handle. -/
theorem updateStatePropsIfNeeded_unsub (mstp : MapFun) (c : Connect) (cur : JsObj) :
    (updateStatePropsIfNeeded mstp c cur).1.unsubscribe = c.unsubscribe := by
  have h := computeStateProps_unsub mstp c cur c.props
  unfold updateStatePropsIfNeeded
  split
  · rename_i c1 tr e heq
    rw [heq] at h
    exact h
  · rename_i c1 tr next heq
    rw [heq] at h
    split
    · split
      · exact h
      · exact h
    · exact h

/-- handleChange never touches the subscription handle. -/
theorem handleChange_unsub (mstp : MapFun) (pure : Bool) (c : Connect) (cur : JsObj) :
    (handleChange mstp pure c cur).1.unsubscribe = c.unsubscribe := by
  have h := updateStatePropsIfNeeded_unsub mstp c cur
  unfold handleChange
  split
  · rfl
  · split
    · rfl
    · split
      · split
        all_goals rename_i heq
        all_goals rw [heq] at h
        all_goals exact h
      · rfl

/-! C1.  For a pure connector with a state-only (arity-1) mapper, a change
event schedules a re-render exactly when the freshly computed derived
props differ by shallow comparison from the cached ones. -/

/-- C1: for a pure connector whose established mapper is state-only, a
data-source change event leads to a re-render if and only if the newly
computed derived props differ by shallow comparison from the previously
cached derived props; when they differ, the update is scheduled with the
new derived props cached and shouldComponentUpdate true. -/
theorem pure_state_only_rerender_iff
    (mstp m : MapFun) (c : Connect) (cur : JsObj) (next prevComputed prev : MapVal)
    (hsub : c.unsubscribe = true)
    (_harity : m.arity = 1)
    (hdep : c.doStatePropsDependOnOwnProps = false)
    (hfm : c.finalMapStateToProps = some m)
    (hsp : c.stateProps = some prev)
    (hrun : m.run cur none = Except.ok next)
    (hprev : m.run c.storeState none = Except.ok prevComputed)
    (hcoh : shallowEqualMV prevComputed prev = true) :
    ((handleChange mstp true c cur).2.1 = true ↔ shallowEqualMV next prev = false) ∧
    (shallowEqualMV next prev = false →
       shouldComponentUpdate true (handleChange mstp true c cur).1 = true ∧
       (handleChange mstp true c cur).1.stateProps = some next) := by
  by_cases hc : c.storeState = cur
  · have hnext : next = prevComputed := by
      rw [hc] at hprev
      rw [hprev] at hrun
      exact (Except.ok.inj hrun).symm
    have hse : shallowEqualMV next prev = true := by rw [hnext]; exact hcoh
    have hh : handleChange mstp true c cur = (c, false, []) := by
      simp [handleChange, hsub, jsIs, hc]
    constructor
    · rw [hh]
      simp [hse]
    · intro hfalse
      rw [hse] at hfalse
      simp at hfalse
  · have hup : updateStatePropsIfNeeded mstp c cur =
        (if shallowEqualMV next prev then (c, [Ev.finalCall], Except.ok false)
         else ({ c with stateProps := some next }, [Ev.finalCall], Except.ok true)) := by
      simp [updateStatePropsIfNeeded, computeStateProps, hfm, computeStatePropsFinal,
            hdep, hrun, hsp]
    by_cases hse : shallowEqualMV next prev = true
    · have hh : handleChange mstp true c cur = (c, false, [Ev.finalCall]) := by
        simp [handleChange, hsub, jsIs, hc, hdep, hup, hse]
      constructor
      · rw [hh]
        simp [hse]
      · intro hfalse
        rw [hse] at hfalse
        simp at hfalse
    · have hse2 : shallowEqualMV next prev = false := by
        cases h : shallowEqualMV next prev
        · rfl
        · exact absurd h hse
      have hh : handleChange mstp true c cur =
          ({ c with stateProps := some next, haveStatePropsBeenPrecalculated := true,
                    hasStoreStateChanged := true, storeState := cur }, true, [Ev.finalCall]) := by
        simp [handleChange, hsub, jsIs, hc, hdep, hup, hse2]
      refine ⟨?_, ?_⟩
      · rw [hh]
        simp [hse2]
      · intro _
        rw [hh]
        exact ⟨by simp [shouldComponentUpdate], rfl⟩

/-- Witness for C1: the spec scenario.  With mapper (state) => (count),
initial cached props count 0: a fresh state object with count 0 schedules
no update; a fresh state object with count 1 schedules an update, caches
derived props count 1, and the next render emits the element with count 1. -/
theorem pure_state_only_rerender_iff_witness :
    (handleChange mapper1 true c0ex s1ex).2.1 = false ∧
    (handleChange mapper1 true c0ex s2ex).2.1 = true ∧
    (handleChange mapper1 true c0ex s2ex).1.stateProps
      = some (MapVal.obj [("count", JVal.num 1)]) ∧
    (render mapper1 true false (handleChange mapper1 true c0ex s2ex).1 s2ex).2.2
      = Except.ok ⟨[("count", JVal.num 1)]⟩ := by
  have h1 := pure_state_only_rerender_iff mapper1 mapper1 c0ex s1ex
      (MapVal.obj [("count", JVal.num 0)]) (MapVal.obj [("count", JVal.num 0)])
      (MapVal.obj [("count", JVal.num 0)]) rfl rfl rfl rfl rfl rfl rfl (by decide)
  have h2 := pure_state_only_rerender_iff mapper1 mapper1 c0ex s2ex
      (MapVal.obj [("count", JVal.num 1)]) (MapVal.obj [("count", JVal.num 0)])
      (MapVal.obj [("count", JVal.num 0)]) rfl rfl rfl rfl rfl rfl rfl (by decide)
  refine ⟨?_, ?_, ?_, ?_⟩
  · cases hb : (handleChange mapper1 true c0ex s1ex).2.1
    · rfl
    · exact absurd (h1.1.mp hb) (by decide)
  · exact h2.1.mpr (by decide)
  · exact (h2.2 (by decide)).2
  · rfl

/-! C2.  Factory mode: the outer mapper runs exactly once per cache
lifetime; all later computations call the stored inner mapper. -/

/-- Once the final mapper is configured, any sequence of further
computations leaves the instance unchanged and performs exactly one
finalCall per computation, and no outerCall. -/
theorem runComputes_configured (mstp m : MapFun) (c : Connect)
    (hfm : c.finalMapStateToProps = some m) (l : List (JsObj × PropsObj)) :
    (runComputes mstp c l).1 = c ∧
    (runComputes mstp c l).2 = List.replicate l.length Ev.finalCall := by
  induction l with
  | nil => exact ⟨rfl, rfl⟩
  | cons hd tl ih =>
      obtain ⟨s, p⟩ := hd
      have hc := computeStateProps_configured mstp m c s p hfm
      simp only [runComputes, hc, List.length_cons, List.replicate_succ]
      exact ⟨ih.1, by rw [ih.2]; rfl⟩

/-- C2: when the user mapper returns a function on first invocation, that
invocation is the only outerCall of the cache lifetime; the returned
inner function is stored as the final mapper, the first derived-props
value is produced by immediately invoking it, and every subsequent
computation performs exactly one call of the stored inner mapper and
never calls the outer factory again. -/
theorem factory_outer_called_once
    (mstp inner : MapFun) (c : Connect) (s : JsObj) (p : PropsObj)
    (hfm : c.finalMapStateToProps = none)
    (hfac : mstp.run s (some p) = Except.ok (MapVal.func inner)) :
    (computeStateProps mstp c s p).1.finalMapStateToProps = some inner ∧
    (computeStateProps mstp c s p).2.1 = [Ev.outerCall, Ev.finalCall] ∧
    (computeStateProps mstp c s p).2.2
      = computeStatePropsFinal inner (inner.arity != 1) s p ∧
    (∀ rest, (runComputes mstp (computeStateProps mstp c s p).1 rest).1
        = (computeStateProps mstp c s p).1 ∧
      (runComputes mstp (computeStateProps mstp c s p).1 rest).2
        = List.replicate rest.length Ev.finalCall) := by
  have hcfg : computeStateProps mstp c s p
      = ({ c with finalMapStateToProps := some inner,
                  doStatePropsDependOnOwnProps := inner.arity != 1 },
         [Ev.outerCall, Ev.finalCall],
         computeStatePropsFinal inner (inner.arity != 1) s p) := by
    simp [computeStateProps, hfm, configureFinalMapState, hfac]
  refine ⟨by rw [hcfg], by rw [hcfg], by rw [hcfg], ?_⟩
  intro rest
  rw [hcfg]
  exact runComputes_configured mstp inner _ rfl rest

/-- A user mapper in factory mode: called with (state, props), it returns
the state-only inner mapper. -/
def factoryEx : MapFun :=
  MapFun.mk 2 (fun _ _ => Except.ok (MapVal.func mapper1))

/-- A freshly constructed instance (cache cleared, nothing configured). -/
def cFreshEx : Connect := initConnect 0 s0ex []

/-- Witness for C2: the concrete factory establishes mapper1 as the inner
mapper with one outerCall, the first value comes from mapper1, and two
further computations perform two finalCalls and no outerCall. -/
theorem factory_outer_called_once_witness :
    (computeStateProps factoryEx cFreshEx s0ex []).1.finalMapStateToProps = some mapper1 ∧
    (computeStateProps factoryEx cFreshEx s0ex []).2.1 = [Ev.outerCall, Ev.finalCall] ∧
    (computeStateProps factoryEx cFreshEx s0ex []).2.2
      = Except.ok (MapVal.obj [("count", JVal.num 0)]) ∧
    (runComputes factoryEx (computeStateProps factoryEx cFreshEx s0ex []).1
        [(s1ex, []), (s2ex, [])]).2 = [Ev.finalCall, Ev.finalCall] := by
  have h := factory_outer_called_once factoryEx mapper1 cFreshEx s0ex [] rfl rfl
  refine ⟨h.1, h.2.1, ?_, ?_⟩
  · rw [h.2.2.1]
    rfl
  · rw [(h.2.2.2 [(s1ex, []), (s2ex, [])]).2]
    rfl

/-! C8.  Arity classification of the established mapper and the matching
invocation shape. -/

/-- An arity-2 plain mapper. -/
def mapper2 : MapFun :=
  MapFun.mk 2 (fun s _ => Except.ok (MapVal.obj [("count", jsGetD s.fields "count")]))

/-- C8: establishing the final mapper (plain or factory) sets
doStatePropsDependOnOwnProps exactly from its declared arity being
different from 1, and derived-props computation then invokes the
established mapper with (state) when the flag is false and with
(state, ownProps) when it is true. -/
theorem arity_classification
    (mstp inner m : MapFun) (c : Connect) (s : JsObj) (p o : PropsObj) :
    (mstp.run s (some p) = Except.ok (MapVal.obj o) →
       (configureFinalMapState mstp c s p).1.doStatePropsDependOnOwnProps
         = (mstp.arity != 1) ∧
       (configureFinalMapState mstp c s p).1.finalMapStateToProps = some mstp) ∧
    (mstp.run s (some p) = Except.ok (MapVal.func inner) →
       (configureFinalMapState mstp c s p).1.doStatePropsDependOnOwnProps
         = (inner.arity != 1) ∧
       (configureFinalMapState mstp c s p).1.finalMapStateToProps = some inner) ∧
    (computeStatePropsFinal m false s p = m.run s none ∧
     computeStatePropsFinal m true s p = m.run s (some p)) := by
  refine ⟨?_, ?_, rfl, rfl⟩
  · intro h
    simp [configureFinalMapState, h]
  · intro h
    simp [configureFinalMapState, h]

/-- Witness for C8: the arity-2 plain mapper is classified as depending on
own props, the factory's arity-1 inner mapper as state-only, and the two
invocation shapes evaluate as stated at concrete inputs. -/
theorem arity_classification_witness :
    (configureFinalMapState mapper2 cFreshEx s0ex []).1.doStatePropsDependOnOwnProps = true ∧
    (configureFinalMapState factoryEx cFreshEx s0ex []).1.doStatePropsDependOnOwnProps = false ∧
    computeStatePropsFinal mapper1 false s0ex [] = mapper1.run s0ex none ∧
    computeStatePropsFinal mapper2 true s0ex [] = mapper2.run s0ex (some []) := by
  have ha := arity_classification mapper2 mapper1 mapper1 cFreshEx s0ex []
      [("count", JVal.num 0)]
  have hb := arity_classification factoryEx mapper1 mapper2 cFreshEx s0ex [] []
  refine ⟨?_, ?_, ?_, ?_⟩
  · rw [(ha.1 rfl).1]
    rfl
  · rw [(hb.2.1 rfl).1]
    rfl
  · exact (ha.2.2).1
  · exact (arity_classification mapper2 mapper1 mapper2 cFreshEx s0ex [] []).2.2.2

/-! C3.  A mapper error during the eager recomputation in the change
handler is captured, the update still scheduled, and the error re-thrown
at the start of the next render after the flags are snapshotted and
cleared. -/

/-- C3: when the eager recomputation inside handleChange throws, the change
handler returns normally with the error captured in
statePropsPrecalculationError, the precalculated flag set and an update
scheduled (setState called); the next render pass returns that error
after clearing all four changed flags. -/
theorem precalc_error_deferred_to_render
    (mstp : MapFun) (c c1 : Connect) (cur : JsObj) (tr : List Ev) (e : Err)
    (hsub : c.unsubscribe = true)
    (hdep : c.doStatePropsDependOnOwnProps = false)
    (hne : c.storeState ≠ cur)
    (herr : updateStatePropsIfNeeded mstp c cur = (c1, tr, Except.error e)) :
    handleChange mstp true c cur
      = ({ c1 with statePropsPrecalculationError := some e,
                   haveStatePropsBeenPrecalculated := true,
                   hasStoreStateChanged := true, storeState := cur }, true, tr) ∧
    (∀ withRef,
       (render mstp true withRef (handleChange mstp true c cur).1 cur).2.2
         = Except.error e ∧
       (render mstp true withRef (handleChange mstp true c cur).1 cur).1.haveOwnPropsChanged
         = false ∧
       (render mstp true withRef (handleChange mstp true c cur).1 cur).1.hasStoreStateChanged
         = false ∧
       (render mstp true withRef
           (handleChange mstp true c cur).1 cur).1.haveStatePropsBeenPrecalculated = false ∧
       (render mstp true withRef
           (handleChange mstp true c cur).1 cur).1.statePropsPrecalculationError = none) := by
  have hh : handleChange mstp true c cur
      = ({ c1 with statePropsPrecalculationError := some e,
                   haveStatePropsBeenPrecalculated := true,
                   hasStoreStateChanged := true, storeState := cur }, true, tr) := by
    simp [handleChange, hsub, jsIs, hne, hdep, herr]
  refine ⟨hh, ?_⟩
  intro wr
  rw [hh]
  simp [render]

/-- A state-only mapper that always throws. -/
def mThrowEx : MapFun := MapFun.mk 1 (fun _ _ => Except.error "boom")

/-- A mounted pure instance whose established mapper is the throwing one. -/
def cThrowEx : Connect :=
  { storeState := s0ex, props := [],
    doStatePropsDependOnOwnProps := false,
    finalMapStateToProps := some mThrowEx,
    haveOwnPropsChanged := false, hasStoreStateChanged := false,
    haveStatePropsBeenPrecalculated := false,
    renderedElement := some ⟨[]⟩,
    stateProps := some (MapVal.obj []),
    statePropsPrecalculationError := none,
    unsubscribe := true, version := 0 }

/-- Witness for C3: the throwing mapper at a fresh state leads to a
scheduled update with the error captured, and the next render returns
the error with the flags cleared. -/
theorem precalc_error_deferred_to_render_witness :
    (handleChange mThrowEx true cThrowEx s1ex).2.1 = true ∧
    (handleChange mThrowEx true cThrowEx s1ex).1.statePropsPrecalculationError
      = some "boom" ∧
    (render mThrowEx true false (handleChange mThrowEx true cThrowEx s1ex).1 s1ex).2.2
      = Except.error "boom" ∧
    (render mThrowEx true false
        (handleChange mThrowEx true cThrowEx s1ex).1 s1ex).1.statePropsPrecalculationError
      = none := by
  have h := precalc_error_deferred_to_render mThrowEx cThrowEx cThrowEx s1ex
      [Ev.finalCall] "boom" rfl rfl (by decide) rfl
  refine ⟨?_, ?_, (h.2 false).1, (h.2 false).2.2.2.2⟩
  · rw [h.1]
  · rw [h.1]

/-! C4.  At most one active subscription per instance; double subscribe
and double unsubscribe are no-ops. -/

/-- C4: subscribing with the handle already set is a no-op, unsubscribing
with no handle set is a no-op, and the bookkeeping invariant (exactly one
registered handler when subscribed, none otherwise) is preserved by every
sequence of subscribe/unsubscribe operations, so at most one subscription
is ever active. -/
theorem subscription_at_most_one (mstp : MapFun) (ss pure : Bool) :
    (∀ c st, c.unsubscribe = true →
       trySubscribe mstp ss pure c st = (c, st, false, [])) ∧
    (∀ c st, c.unsubscribe = false → tryUnsubscribe c st = (c, st, [])) ∧
    (∀ ops c st, subInv c st →
       subInv (runSubOps mstp ss pure ops c st).1 (runSubOps mstp ss pure ops c st).2) := by
  refine ⟨?_, ?_, ?_⟩
  · intro c st h
    simp [trySubscribe, h]
  · intro c st h
    simp [tryUnsubscribe, h]
  · intro ops
    induction ops with
    | nil =>
        intro c st h
        exact h
    | cons op rest ih =>
        intro c st h
        cases op with
        | sub =>
            simp only [runSubOps]
            apply ih
            unfold trySubscribe
            by_cases hs : ss && !c.unsubscribe
            · simp only [hs, if_true]
              have hun := handleChange_unsub mstp pure { c with unsubscribe := true } st.curState
              simp at hs
              unfold subInv at h ⊢
              simp only [hun]
              simp [hs.2] at h
              simp [h]
            · simp only [hs]
              simp only [Bool.false_eq_true, if_false]
              exact h
        | unsub =>
            simp only [runSubOps]
            apply ih
            unfold tryUnsubscribe
            by_cases hu : c.unsubscribe
            · simp only [hu, if_true]
              unfold subInv at h ⊢
              simp [hu] at h
              simp [h]
            · simp only [hu]
              simp only [Bool.false_eq_true, if_false]
              exact h

/-- A store fixture with no listeners. -/
def stEx : Store := ⟨s0ex, 0⟩

/-- A subscribed instance fixture. -/
def cSubEx : Connect := { initConnect 0 s0ex [] with unsubscribe := true }

/-- Witness for C4: a second subscribe on a subscribed instance changes
nothing, an unsubscribe on an unsubscribed instance changes nothing, and
the invariant holds along a concrete subscribe/unsubscribe sequence. -/
theorem subscription_at_most_one_witness :
    trySubscribe mapper1 true true cSubEx ⟨s0ex, 1⟩ = (cSubEx, ⟨s0ex, 1⟩, false, []) ∧
    tryUnsubscribe cFreshEx stEx = (cFreshEx, stEx, []) ∧
    subInv (runSubOps mapper1 true true [SubOp.sub, SubOp.sub, SubOp.unsub] cFreshEx stEx).1
      (runSubOps mapper1 true true [SubOp.sub, SubOp.sub, SubOp.unsub] cFreshEx stEx).2 := by
  have h := subscription_at_most_one mapper1 true true
  refine ⟨h.1 cSubEx ⟨s0ex, 1⟩ rfl, h.2.1 cFreshEx stEx rfl, ?_⟩
  exact h.2.2 [SubOp.sub, SubOp.sub, SubOp.unsub] cFreshEx stEx rfl

/-! C5 and C10.  Key precedence in the merged props. -/

/-- Writing a key makes jsGet return the written value. -/
theorem jsGet_jsSet_same (o : PropsObj) (k : String) (v : JVal) :
    jsGet (jsSet o k v) k = some v := by
  simp [jsGet, jsSet, List.find?]

/-- Writing one key leaves jsGet at a different key unchanged. -/
theorem jsGet_jsSet_ne (o : PropsObj) (k k2 : String) (v : JVal) (h : k2 ≠ k) :
    jsGet (jsSet o k2 v) k = jsGet o k := by
  have hb : (k2 == k) = false := beq_eq_false_iff_ne.mpr h
  simp [jsGet, jsSet, List.find?, hb]

/-- C5 (amended): in the merged props, own props take precedence over
same-named derived props and keys present in only one side keep their
value, except that with withRef enabled the key ref is always mapped to
the internal value wrappedInstance. -/
theorem merged_props_own_precedence (sp ps : PropsObj) (k : String) :
    (jsGet (mergedPropsOf false (some (MapVal.obj sp)) ps) k
       = jsOr (jsGet ps k) (jsGet sp k)) ∧
    (k ≠ "ref" →
       jsGet (mergedPropsOf true (some (MapVal.obj sp)) ps) k
         = jsOr (jsGet ps k) (jsGet sp k)) ∧
    (jsGet (mergedPropsOf true (some (MapVal.obj sp)) ps) "ref"
       = some (JVal.str "wrappedInstance")) := by
  refine ⟨?_, ?_, ?_⟩
  · show jsGet (ps ++ sp) k = jsOr (jsGet ps k) (jsGet sp k)
    exact jsGet_append ps sp k
  · intro hk
    show jsGet (jsSet (ps ++ sp) "ref" (JVal.str "wrappedInstance")) k
      = jsOr (jsGet ps k) (jsGet sp k)
    rw [jsGet_jsSet_ne (ps ++ sp) k "ref" (JVal.str "wrappedInstance") (Ne.symm hk)]
    exact jsGet_append ps sp k
  · exact jsGet_jsSet_same (ps ++ sp) "ref" (JVal.str "wrappedInstance")

/-- Witness for the amended C5 at concrete objects: a colliding key takes
the own-prop value, solo keys keep their values, and the ref exception
holds. -/
theorem merged_props_own_precedence_witness :
    jsGet (mergedPropsOf false (some (MapVal.obj [("x", JVal.num 1), ("y", JVal.num 9)]))
        [("x", JVal.num 2), ("z", JVal.num 3)]) "x" = some (JVal.num 2) ∧
    jsGet (mergedPropsOf true (some (MapVal.obj [("x", JVal.num 1), ("y", JVal.num 9)]))
        [("x", JVal.num 2), ("z", JVal.num 3)]) "y" = some (JVal.num 9) ∧
    jsGet (mergedPropsOf true (some (MapVal.obj [("x", JVal.num 1), ("y", JVal.num 9)]))
        [("x", JVal.num 2), ("z", JVal.num 3)]) "ref"
      = some (JVal.str "wrappedInstance") := by
  have hx := merged_props_own_precedence [("x", JVal.num 1), ("y", JVal.num 9)]
      [("x", JVal.num 2), ("z", JVal.num 3)] "x"
  have hy := merged_props_own_precedence [("x", JVal.num 1), ("y", JVal.num 9)]
      [("x", JVal.num 2), ("z", JVal.num 3)] "y"
  refine ⟨?_, ?_, hy.2.2⟩
  · rw [hx.1]
    rfl
  · rw [hy.2.1 (by decide)]
    rfl

/-- An instance whose cached derived props and own props both carry a ref
key, with the precalculated flag set so the next render merges them as
they stand. -/
def cEx5 : Connect :=
  { storeState := s0ex, props := [("ref", JVal.str "own"), ("b", JVal.num 2)],
    doStatePropsDependOnOwnProps := false,
    finalMapStateToProps := some mapper1,
    haveOwnPropsChanged := false, hasStoreStateChanged := false,
    haveStatePropsBeenPrecalculated := true,
    renderedElement := none,
    stateProps := some (MapVal.obj [("ref", JVal.str "derived"), ("a", JVal.num 1)]),
    statePropsPrecalculationError := none,
    unsubscribe := true, version := 0 }

/-- The merged props render builds for cEx5 with withRef enabled. -/
def c5merged : PropsObj :=
  [("ref", JVal.str "wrappedInstance"), ("ref", JVal.str "own"), ("b", JVal.num 2),
   ("ref", JVal.str "derived"), ("a", JVal.num 1)]

/-- Counterexample to C5 as stated: with withRef enabled, the element
rendered for an instance whose own props carry a ref key receives the
internal value wrappedInstance for ref, not the own-prop value. -/
theorem merged_props_ref_cex :
    (render mapper1 true true cEx5 s0ex).2.2 = Except.ok ⟨c5merged⟩ ∧
    jsGet c5merged "ref" = some (JVal.str "wrappedInstance") ∧
    jsGet [("ref", JVal.str "own"), ("b", JVal.num 2)] "ref" = some (JVal.str "own") ∧
    some (JVal.str "wrappedInstance") ≠ some (JVal.str "own") := by
  exact ⟨rfl, by decide, by decide, by decide⟩

/-- C10: with withRef enabled, the merged props map ref to the internal
value wrappedInstance whatever the derived or own props contain, and
every other key still gets the own-prop value when present, else the
derived value. -/
theorem withRef_ref_key (sp : Option MapVal) (ps : PropsObj) :
    jsGet (mergedPropsOf true sp ps) "ref" = some (JVal.str "wrappedInstance") ∧
    (∀ k, k ≠ "ref" →
       jsGet (mergedPropsOf true sp ps) k
         = jsOr (jsGet ps k) (jsGet (spreadSrc sp) k)) := by
  refine ⟨?_, ?_⟩
  · exact jsGet_jsSet_same (ps ++ spreadSrc sp) "ref" (JVal.str "wrappedInstance")
  · intro k hk
    show jsGet (jsSet (ps ++ spreadSrc sp) "ref" (JVal.str "wrappedInstance")) k
      = jsOr (jsGet ps k) (jsGet (spreadSrc sp) k)
    rw [jsGet_jsSet_ne (ps ++ spreadSrc sp) k "ref" (JVal.str "wrappedInstance") (Ne.symm hk)]
    exact jsGet_append ps (spreadSrc sp) k

/-- Witness for C10: an own prop named ref is overwritten with
wrappedInstance, while another key keeps its own-prop value. -/
theorem withRef_ref_key_witness :
    jsGet (mergedPropsOf true (some (MapVal.obj [("b", JVal.num 7)]))
        [("ref", JVal.str "mine")]) "ref" = some (JVal.str "wrappedInstance") ∧
    jsGet (mergedPropsOf true (some (MapVal.obj [("b", JVal.num 7)]))
        [("ref", JVal.str "mine")]) "b" = some (JVal.num 7) := by
  have h := withRef_ref_key (some (MapVal.obj [("b", JVal.num 7)])) [("ref", JVal.str "mine")]
  refine ⟨h.1, ?_⟩
  rw [h.2 "b" (by decide)]
  rfl

/-! C6.  What the mount-time handler invocation actually does. -/

/-- Counterexample to C6 as stated: mounting a pure connector while the
store state is still the construction snapshot registers the handler but
performs no derived-props recomputation at all (no mapper call event,
derived props still unset). -/
theorem mount_no_recompute_cex :
    (trySubscribe mapper1 true true (initConnect 0 s0ex []) ⟨s0ex, 0⟩).2.2.2
      = [Ev.subscribed] ∧
    (trySubscribe mapper1 true true (initConnect 0 s0ex []) ⟨s0ex, 0⟩).1.stateProps
      = none := by
  exact ⟨rfl, rfl⟩

/-- C6 (amended): mount registers the change handler and invokes it once;
for a pure connector that invocation recomputes derived props only when
the store's current state is not reference-identical to the construction
snapshot — identical state returns without recomputing, different state
performs the recomputation and schedules the update. -/
theorem mount_recompute_on_gap
    (mstp : MapFun) (c : Connect) (st : Store) (o : PropsObj)
    (hunsub : c.unsubscribe = false)
    (hdep : c.doStatePropsDependOnOwnProps = false)
    (hfm : c.finalMapStateToProps = none)
    (hsp : c.stateProps = none)
    (hrun : mstp.run st.curState (some c.props) = Except.ok (MapVal.obj o)) :
    (st.curState = c.storeState →
       (trySubscribe mstp true true c st).2.2.2 = [Ev.subscribed] ∧
       (trySubscribe mstp true true c st).1.stateProps = none ∧
       (trySubscribe mstp true true c st).2.2.1 = false) ∧
    (st.curState ≠ c.storeState →
       (trySubscribe mstp true true c st).2.2.2 = [Ev.subscribed, Ev.outerCall] ∧
       (trySubscribe mstp true true c st).1.stateProps = some (MapVal.obj o) ∧
       (trySubscribe mstp true true c st).2.2.1 = true) := by
  have ht : trySubscribe mstp true true c st
      = ((handleChange mstp true { c with unsubscribe := true } st.curState).1,
         { st with listeners := st.listeners + 1 },
         (handleChange mstp true { c with unsubscribe := true } st.curState).2.1,
         Ev.subscribed :: (handleChange mstp true { c with unsubscribe := true } st.curState).2.2) := by
    simp [trySubscribe, hunsub]
  constructor
  · intro heq
    have hh : handleChange mstp true { c with unsubscribe := true } st.curState
        = ({ c with unsubscribe := true }, false, []) := by
      simp [handleChange, jsIs, heq.symm]
    rw [ht, hh]
    simp [hsp]
  · intro hne
    have hns : c.storeState ≠ st.curState := Ne.symm hne
    have hup : updateStatePropsIfNeeded mstp { c with unsubscribe := true } st.curState
        = ({ c with unsubscribe := true, finalMapStateToProps := some mstp,
                    doStatePropsDependOnOwnProps := mstp.arity != 1,
                    stateProps := some (MapVal.obj o) },
           [Ev.outerCall], Except.ok true) := by
      simp [updateStatePropsIfNeeded, computeStateProps, hfm, configureFinalMapState,
            hrun, hsp]
    rw [hdep] at hup
    have hh : handleChange mstp true { c with unsubscribe := true } st.curState
        = ({ c with unsubscribe := true, finalMapStateToProps := some mstp,
                    doStatePropsDependOnOwnProps := mstp.arity != 1,
                    stateProps := some (MapVal.obj o),
                    haveStatePropsBeenPrecalculated := true,
                    hasStoreStateChanged := true, storeState := st.curState },
           true, [Ev.outerCall]) := by
      simp [handleChange, jsIs, hns, hdep, hup]
    rw [ht, hh]
    simp

/-- Witness for the amended C6: same state object at mount means no
recomputation; a state gap at mount means one outerCall, cached derived
props, and a scheduled update. -/
theorem mount_recompute_on_gap_witness :
    ((trySubscribe mapper1 true true (initConnect 0 s0ex []) ⟨s0ex, 0⟩).2.2.2
       = [Ev.subscribed] ∧
     (trySubscribe mapper1 true true (initConnect 0 s0ex []) ⟨s0ex, 0⟩).2.2.1 = false) ∧
    ((trySubscribe mapper1 true true (initConnect 0 s0ex []) ⟨s2ex, 0⟩).2.2.2
       = [Ev.subscribed, Ev.outerCall] ∧
     (trySubscribe mapper1 true true (initConnect 0 s0ex []) ⟨s2ex, 0⟩).1.stateProps
       = some (MapVal.obj [("count", JVal.num 1)]) ∧
     (trySubscribe mapper1 true true (initConnect 0 s0ex []) ⟨s2ex, 0⟩).2.2.1 = true) := by
  have hsame := mount_recompute_on_gap mapper1 (initConnect 0 s0ex []) ⟨s0ex, 0⟩
      [("count", JVal.num 0)] rfl rfl rfl rfl rfl
  have hgap := mount_recompute_on_gap mapper1 (initConnect 0 s0ex []) ⟨s2ex, 0⟩
      [("count", JVal.num 1)] rfl rfl rfl rfl rfl
  have h1 := hsame.1 rfl
  have h2 := hgap.2 (by decide)
  exact ⟨⟨h1.1, h1.2.2⟩, h2⟩

/-! C7.  Ordering of unsubscription and cache clears. -/

/-- Counterexample to C7 as stated: the development-only hot-reload path
clears the cache of a still-subscribed instance — the clear event carries
subscription status true and the instance remains subscribed. -/
theorem hot_reload_clears_while_subscribed_cex :
    (componentWillUpdate mapper1 true true 1 cSubEx ⟨s0ex, 1⟩).2.2.2
      = [Ev.cacheCleared true] ∧
    (componentWillUpdate mapper1 true true 1 cSubEx ⟨s0ex, 1⟩).1.unsubscribe = true ∧
    (componentWillUpdate mapper1 true true 1 cSubEx ⟨s0ex, 1⟩).1.renderedElement = none ∧
    (componentWillUpdate mapper1 true true 1 cSubEx ⟨s0ex, 1⟩).1.finalMapStateToProps
      = none := by
  exact ⟨rfl, rfl, rfl, rfl⟩

/-- C7 (amended): on the unmount path the unsubscription always precedes
the cache clear (the clear executes with the handle released), while on
the development-only hot-reload path a subscribed stale instance has its
cache cleared with the subscription still active. -/
theorem unmount_unsubscribes_before_clear
    (mstp : MapFun) (v : Nat) (c : Connect) (st : Store) :
    ((componentWillUnmount c st).2.2
       = (if c.unsubscribe then [Ev.unsubscribed] else []) ++ [Ev.cacheCleared false]) ∧
    ((componentWillUnmount c st).1.unsubscribe = false) ∧
    (c.unsubscribe = true → c.version ≠ v →
       (componentWillUpdate mstp true true v c st).2.2.2 = [Ev.cacheCleared true] ∧
       (componentWillUpdate mstp true true v c st).1.unsubscribe = true) := by
  refine ⟨?_, ?_, ?_⟩
  · by_cases hu : c.unsubscribe
    · simp [componentWillUnmount, tryUnsubscribe, hu]
    · simp [componentWillUnmount, tryUnsubscribe, hu]
  · by_cases hu : c.unsubscribe
    · simp [componentWillUnmount, tryUnsubscribe, clearCache, hu]
    · simp [componentWillUnmount, tryUnsubscribe, clearCache, hu]
  · intro hu hv
    have hbeq : (c.version == v) = false := by
      simp [hv]
    simp [componentWillUpdate, hbeq, trySubscribe, hu, clearCache]

/-- Witness for the amended C7: concrete subscribed and unsubscribed
instances on the unmount path, and the concrete hot-reload clear of a
subscribed instance. -/
theorem unmount_unsubscribes_before_clear_witness :
    (componentWillUnmount cSubEx ⟨s0ex, 1⟩).2.2
      = [Ev.unsubscribed, Ev.cacheCleared false] ∧
    (componentWillUnmount cFreshEx stEx).2.2 = [Ev.cacheCleared false] ∧
    (componentWillUpdate mapper1 true true 1 cSubEx ⟨s0ex, 1⟩).2.2.2
      = [Ev.cacheCleared true] := by
  have h1 := unmount_unsubscribes_before_clear mapper1 1 cSubEx (⟨s0ex, 1⟩ : Store)
  have h2 := unmount_unsubscribes_before_clear mapper1 1 cFreshEx stEx
  refine ⟨?_, ?_, (h1.2.2 rfl (by decide)).1⟩
  · rw [h1.1]
    rfl
  · rw [h2.1]
    rfl

/-! C9.  Whether the core mutates the data source. -/

/-- Counterexample to C9 as stated: the Provider's getChildContext changes
the data-source object (it installs the getState accessor on it). -/
theorem provider_mutates_source_cex :
    getChildContext ⟨s0ex, false⟩ ≠ (⟨s0ex, false⟩ : FluxSource) := by
  decide

/-- C9 (amended): the connector only reads the store state and adjusts the
handler registration (subscribe and unsubscribe never change the state),
while the Provider's getChildContext performs exactly one mutation of the
data source: it installs the getState accessor, leaving the state
untouched. -/
theorem core_reads_only :
    (∀ flux : FluxSource, (getChildContext flux).state = flux.state ∧
       (getChildContext flux).hasGetState = true) ∧
    (∀ (mstp : MapFun) (ss pure : Bool) (c : Connect) (st : Store),
       (trySubscribe mstp ss pure c st).2.1.curState = st.curState) ∧
    (∀ (c : Connect) (st : Store), (tryUnsubscribe c st).2.1.curState = st.curState) := by
  refine ⟨fun flux => ⟨rfl, rfl⟩, ?_, ?_⟩
  · intro mstp ss pure c st
    unfold trySubscribe
    split
    · rfl
    · rfl
  · intro c st
    unfold tryUnsubscribe
    split
    · rfl
    · rfl

end FluxConnect
